import Mathlib

/-!
Verification of the youtube_2_whisper segment-resolution and
transcription-orchestration pipeline.

The Python sources are shallowly embedded below: pure helpers from
src/utils.py and src/main.py become Lean functions on String and Rat,
the data model of src/youtube_2_whisper/models.py becomes structures,
and the orchestration of src/youtube_2_whisper/processor.py becomes a
pure function over oracle results for the external collaborators
(media source, transcription backend).  Python floats appearing in the
pipeline (parsed times, durations) hold exactly representable decimal
values, so they are modelled as rationals; SHA-256 is implemented in
full so that identifier derivation is the real digest.
-/

unseal Rat.mul Rat.add Rat.inv Rat.sub Rat.ofScientific

/-! ## Python string primitives -/

/-- ASCII whitespace, the characters stripped by Python str.strip on the
inputs considered here (Python also strips further Unicode whitespace,
which none of the modelled inputs contain). -/
def pyIsSpace (c : Char) : Bool :=
  c = ' ' || c = '\t' || c = '\n' || c = '\r' || c = '\x0b' || c = '\x0c'

/-- Python str.strip: drop leading and trailing whitespace. -/
def pyStrip (s : String) : String :=
  String.mk (((s.data.dropWhile pyIsSpace).reverse.dropWhile pyIsSpace).reverse)

/-- Python str.lower on one character, for the ASCII and Russian
(Cyrillic) letters appearing in the modelled inputs. -/
def pyLowerChar (c : Char) : Char :=
  if 65 ≤ c.toNat ∧ c.toNat ≤ 90 then Char.ofNat (c.toNat + 32)
  else if 1040 ≤ c.toNat ∧ c.toNat ≤ 1071 then Char.ofNat (c.toNat + 32)
  else if c.toNat = 1025 then Char.ofNat 1105
  else c

/-- Python str.lower. -/
def pyLower (s : String) : String := String.mk (s.data.map pyLowerChar)

/-! ## UTF-8 encoding (bytes as natural numbers) -/

/-- UTF-8 bytes of one codepoint. -/
def utf8Char (c : Char) : List ℕ :=
  let n := c.toNat
  if n < 128 then [n]
  else if n < 2048 then [192 + n / 64, 128 + n % 64]
  else if n < 65536 then [224 + n / 4096, 128 + n / 64 % 64, 128 + n % 64]
  else [240 + n / 262144, 128 + n / 4096 % 64, 128 + n / 64 % 64, 128 + n % 64]

/-- UTF-8 encoding of a string as a byte list. -/
def utf8Encode (s : String) : List ℕ := (s.data.map utf8Char).flatten

/-! ## SHA-256

A complete executable implementation of FIPS 180-4 SHA-256 over byte
lists, words being naturals reduced mod 2^32, used to model Python
hashlib.sha256(...).hexdigest(). -/

/-- Reduce to a 32-bit word. -/
def m32 (n : ℕ) : ℕ := n % 4294967296

/-- Right rotation of a 32-bit word. -/
def rotr (k n : ℕ) : ℕ := m32 ((n >>> k) ||| (n <<< (32 - k)))

/-- Bitwise complement within 32 bits. -/
def bnot32 (n : ℕ) : ℕ := 4294967295 ^^^ n

def bigSigma0 (n : ℕ) : ℕ := rotr 2 n ^^^ rotr 13 n ^^^ rotr 22 n

def bigSigma1 (n : ℕ) : ℕ := rotr 6 n ^^^ rotr 11 n ^^^ rotr 25 n

def smallSigma0 (n : ℕ) : ℕ := rotr 7 n ^^^ rotr 18 n ^^^ (n >>> 3)

def smallSigma1 (n : ℕ) : ℕ := rotr 17 n ^^^ rotr 19 n ^^^ (n >>> 10)

def chFun (e f g : ℕ) : ℕ := (e &&& f) ^^^ (bnot32 e &&& g)

def majFun (a b c : ℕ) : ℕ := (a &&& b) ^^^ (a &&& c) ^^^ (b &&& c)

/-- The 64 SHA-256 round constants (the fractional parts of the cube
roots of the first 64 primes, as 32-bit words, written in decimal). -/
def sha256K : List ℕ :=
  [1116352408, 1899447441, 3049323471, 3921009573, 961987163,
   1508970993, 2453635748, 2870763221, 3624381080, 310598401,
   607225278, 1426881987, 1925078388, 2162078206, 2614888103,
   3248222580, 3835390401, 4022224774, 264347078, 604807628,
   770255983, 1249150122, 1555081692, 1996064986, 2554220882,
   2821834349, 2952996808, 3210313671, 3336571891, 3584528711,
   113926993, 338241895, 666307205, 773529912, 1294757372,
   1396182291, 1695183700, 1986661051, 2177026350, 2456956037,
   2730485921, 2820302411, 3259730800, 3345764771, 3516065817,
   3600352804, 4094571909, 275423344, 430227734, 506948616,
   659060556, 883997877, 958139571, 1322822218, 1537002063,
   1747873779, 1955562222, 2024104815, 2227730452, 2361852424,
   2428436474, 2756734187, 3204031479, 3329325298]

/-- The SHA-256 initial hash value (fractional parts of the square roots
of the first 8 primes, as 32-bit words, written in decimal). -/
def sha256H0 : List ℕ :=
  [1779033703, 3144134277, 1013904242,
   2773480762, 1359893119, 2600822924,
   528734635, 1541459225]

/-- Big-endian 8-byte encoding of a 64-bit length. -/
def be64 (n : ℕ) : List ℕ :=
  [56, 48, 40, 32, 24, 16, 8, 0].map (fun k => (n >>> k) % 256)

/-- SHA-256 padding: append 0x80, zeros to 56 mod 64, then the bit length. -/
def padBytes (msg : List ℕ) : List ℕ :=
  let len := msg.length
  let z := (120 - ((len + 1) % 64)) % 64
  msg ++ [128] ++ List.replicate z 0 ++ be64 (len * 8)

/-- Group bytes into big-endian 32-bit words. -/
def toWords : List ℕ → List ℕ
  | b0 :: b1 :: b2 :: b3 :: rest =>
      (((b0 <<< 8 ||| b1) <<< 8 ||| b2) <<< 8 ||| b3) :: toWords rest
  | _ => []

/-- Extend the 16 block words to the 64-entry message schedule. -/
def extendW (w : List ℕ) : ℕ → List ℕ
  | 0 => w
  | n + 1 =>
      extendW
        (w ++ [m32 (smallSigma1 (w.getD (w.length - 2) 0) + w.getD (w.length - 7) 0
                    + smallSigma0 (w.getD (w.length - 15) 0) + w.getD (w.length - 16) 0)]) n

/-- Working state of the compression function. -/
abbrev Sha256St := ℕ × ℕ × ℕ × ℕ × ℕ × ℕ × ℕ × ℕ

/-- One SHA-256 round. -/
def roundStep (st : Sha256St) (kw : ℕ × ℕ) : Sha256St :=
  let (a, b, c, d, e, f, g, h) := st
  let t1 := m32 (h + bigSigma1 e + chFun e f g + kw.1 + kw.2)
  let t2 := m32 (bigSigma0 a + majFun a b c)
  (m32 (t1 + t2), a, b, c, m32 (d + t1), e, f, g)

/-- Compress one 64-byte block into the running hash. -/
def compressBlock (hv : List ℕ) (block : List ℕ) : List ℕ :=
  let w := extendW (toWords block) 48
  match hv with
  | [h0, h1, h2, h3, h4, h5, h6, h7] =>
      let (a, b, c, d, e, f, g, h) :=
        (sha256K.zip w).foldl roundStep (h0, h1, h2, h3, h4, h5, h6, h7)
      [m32 (h0 + a), m32 (h1 + b), m32 (h2 + c), m32 (h3 + d),
       m32 (h4 + e), m32 (h5 + f), m32 (h6 + g), m32 (h7 + h)]
  | _ => hv

/-- Split into 64-byte chunks (fuel-driven; the input is always padded
to a multiple of 64 bytes). -/
def chunks64 : ℕ → List ℕ → List (List ℕ)
  | 0, _ => []
  | _, [] => []
  | fuel + 1, l => l.take 64 :: chunks64 fuel (l.drop 64)

/-- SHA-256 digest of a byte list, as eight 32-bit words. -/
def sha256Words (msg : List ℕ) : List ℕ :=
  let p := padBytes msg
  (chunks64 p.length p).foldl compressBlock sha256H0

/-- Lowercase hex digit. -/
def hexDigit (n : ℕ) : Char :=
  Char.ofNat (if n < 10 then 48 + n else 87 + n)

/-- Eight lowercase hex digits of a 32-bit word. -/
def word32Hex (w : ℕ) : List Char :=
  [28, 24, 20, 16, 12, 8, 4, 0].map (fun k => hexDigit ((w >>> k) % 16))

/-- Lowercase hex encoding of a SHA-256 digest of a byte list, i.e.
hashlib.sha256(bytes).hexdigest(). -/
def sha256Hex (msg : List ℕ) : String :=
  String.mk ((sha256Words msg).map word32Hex).flatten

/-- hashlib.sha256 of the UTF-8 bytes of a string, hex-encoded. -/
def sha256HexOfString (s : String) : String := sha256Hex (utf8Encode s)

/-- FIPS 180-4 test vector validating the SHA-256 implementation. -/
theorem sha256_test_vector_abc : sha256HexOfString "abc" =
    "ba7816bf8f01cfea414140de5dae2223b00361a396177a9cb410ff61f20015ad" := by decide

/-- FIPS 180-4 test vector for the empty message. -/
theorem sha256_test_vector_empty : sha256HexOfString "" =
    "e3b0c44298fc1c149afbf4c8996fb92427ae41e4649b934ca495991b7852b855" := by decide

/-! ## Python float() and str(float)

Python floats appearing in the pipeline carry exactly representable
decimal values (times parsed from decimal strings, integer durations),
so they are modelled as rationals.  pyFloat models float(str) on the
plain decimal grammar (sign, digits, optional point, optional exponent;
the inf/nan and underscore forms never occur in this pipeline), and
pyFloatStr models str(float)/repr for finite-decimal values, which
prints the shortest decimal with at least one fractional digit. -/

/-- Numeric value of a digit string. -/
def digitsVal (ds : List Char) : ℕ :=
  ds.foldl (fun a c => 10 * a + (c.toNat - 48)) 0

/-- The exponent suffix of a float literal. -/
def pyFloatExp (mant : ℚ) (cs : List Char) : Option ℚ :=
  let (esign, cs1) : ℤ × List Char :=
    match cs with
    | '+' :: r => (1, r)
    | '-' :: r => (-1, r)
    | _ => (1, cs)
  let eds := cs1.takeWhile Char.isDigit
  let rest := cs1.dropWhile Char.isDigit
  if eds.isEmpty || !rest.isEmpty then none
  else some (mant * (10 : ℚ) ^ (esign * (digitsVal eds : ℤ)))

/-- Parse a stripped float literal. -/
def pyFloatAux (cs : List Char) : Option ℚ :=
  let (sign, cs1) : ℚ × List Char :=
    match cs with
    | '+' :: r => (1, r)
    | '-' :: r => (-1, r)
    | _ => (1, cs)
  let intDs := cs1.takeWhile Char.isDigit
  let cs2 := cs1.dropWhile Char.isDigit
  let (fracDs, cs3) : List Char × List Char :=
    match cs2 with
    | '.' :: r => (r.takeWhile Char.isDigit, r.dropWhile Char.isDigit)
    | _ => ([], cs2)
  if intDs.isEmpty && fracDs.isEmpty then none
  else
    let mant : ℚ :=
      sign * ((digitsVal intDs : ℚ) + (digitsVal fracDs : ℚ) / 10 ^ fracDs.length)
    match cs3 with
    | [] => some mant
    | 'e' :: r => pyFloatExp mant r
    | 'E' :: r => pyFloatExp mant r
    | _ => none

/-- Python float(s): strip, then parse the decimal literal. -/
def pyFloat (s : String) : Option ℚ := pyFloatAux (pyStrip s).data

/-- Python float(s) raising ValueError on bad literals, as an Except. -/
def pyFloatE (s : String) : Except String ℚ :=
  match pyFloat s with
  | some q => .ok q
  | none => .error ("could not convert string to float: " ++ s)

deriving instance DecidableEq for Except

/-- Smallest power of ten clearing the denominator (floats always have
a finite decimal expansion well within 60 digits). -/
def decimalExp (q : ℚ) : Option ℕ :=
  (List.range 60).find? (fun k => (q * (10 : ℚ) ^ k).den = 1)

/-- Decimal digits of a natural number, most significant first. -/
def natDec (n : ℕ) : List Char := Nat.toDigits 10 n

/-- Python str(float) / repr for finite-decimal values: the shortest
decimal form, always keeping one fractional digit (10.0, 90.5). -/
def pyFloatStr (q : ℚ) : String :=
  let sgn := if q < 0 then "-" else ""
  match decimalExp q with
  | some 0 => sgn ++ String.mk (natDec q.num.natAbs) ++ ".0"
  | some (k + 1) =>
      let kk := k + 1
      let a := (q * (10 : ℚ) ^ kk).num.natAbs
      let s0 := natDec a
      let s1 := if s0.length ≤ kk then List.replicate (kk + 1 - s0.length) '0' ++ s0 else s0
      sgn ++ String.mk (s1.take (s1.length - kk)) ++ "." ++ String.mk (s1.drop (s1.length - kk))
  | none => sgn ++ String.mk (natDec q.num.natAbs)

/-- Sanity checks of the float printing model against Python repr. -/
theorem pyFloatStr_samples : pyFloatStr 10 = "10.0" ∧ pyFloatStr (181 / 2 : ℚ) = "90.5" :=
  ⟨by decide, by decide⟩

/-- Sanity checks of the float parsing model against Python float(). -/
theorem pyFloat_samples :
    pyFloat "20.5" = some (41 / 2 : ℚ) ∧ pyFloat " 30" = some 30 ∧
    pyFloat "bad" = none ∧ pyFloat "" = none :=
  ⟨by decide, by decide, by decide, by decide⟩

/-! ## src/utils.py -/

/-- src/utils.py MAX_FILENAME_LENGTH. -/
def MAX_FILENAME_LENGTH : ℕ := 200

/-- The characters the regex of sanitize_filename in src/utils.py
replaces: the class matches < > " / backslash | ? * (the colon is NOT
in this set, unlike the sibling copy in src/main.py). -/
def isForbiddenChar (c : Char) : Bool :=
  c = '<' || c = '>' || c = '"' || c = '/' || c = '\\' || c = '|' || c = '?' || c = '*'

/-- src/utils.py sanitize_filename: replace forbidden characters with
an underscore, strip, truncate to max_length codepoints. -/
def sanitize_filename (filename : String) (max_length : ℕ) : String :=
  let clean_name :=
    pyStrip (String.mk (filename.data.map (fun c => if isForbiddenChar c then '_' else c)))
  if clean_name.length > max_length then String.mk (clean_name.data.take max_length)
  else clean_name

/-- The ValueError message of parse_time for an unsupported component
count, as built in src/utils.py. -/
def timeFormatError (t : String) : String :=
  "Неверный формат времени: " ++ t ++
    ". Поддерживаются форматы: секунды (45 или 20.5), MM:SS, HH:MM:SS, HH:MM:SS:MSS"

/-- Split a character list at every occurrence of a separator (Python
str.split with an explicit separator: no run collapsing, an empty
input gives one empty component). -/
def splitCh (sep : Char) : List Char → List (List Char)
  | [] => [[]]
  | c :: rest =>
      match splitCh sep rest with
      | [] => [[]]
      | h :: t => if c == sep then [] :: h :: t else (c :: h) :: t

/-- Python s.split on the colon, over strings. -/
def pySplitColon (s : String) : List String := (splitCh ':' s.data).map String.mk

/-- src/utils.py parse_time: strip, split on colon, dispatch on the
component count; components are parsed with float(). -/
def parse_time (time_str : String) : Except String ℚ :=
  let t := pyStrip time_str
  match pySplitColon t with
  | [a] => pyFloatE a
  | [a, b] => do
      let x ← pyFloatE a
      let y ← pyFloatE b
      pure (x * 60 + y)
  | [a, b, c] => do
      let x ← pyFloatE a
      let y ← pyFloatE b
      let z ← pyFloatE c
      pure (x * 3600 + y * 60 + z)
  | [a, b, c, d] => do
      let x ← pyFloatE a
      let y ← pyFloatE b
      let z ← pyFloatE c
      let w ← pyFloatE d
      pure (x * 3600 + y * 60 + z + w / 1000)
  | _ => .error (timeFormatError t)

/-- The substitution performed by re.sub in normalize_text_simple of
src/utils.py: its pattern is the RAW string with a doubled backslash,
which the regex engine reads as a literal backslash followed by one or
more letters s — NOT as a whitespace run.  The Bool records being just
past a replaced match, still consuming its greedy run of the letter s. -/
def subBackslashS (skip : Bool) : List Char → List Char
  | [] => []
  | c :: rest =>
      if skip && c == 's' then subBackslashS true rest
      else if c == '\\' && rest.head? == some 's' then ' ' :: subBackslashS true rest
      else c :: subBackslashS false rest

/-- src/utils.py normalize_text_simple: strip, lower, then the re.sub
above (which, due to the doubled backslash, does not touch spaces). -/
def normalize_text_simple (text : String) : String :=
  String.mk (subBackslashS false (pyLower (pyStrip text)).data)

/-- Replace every whitespace run by a single space: the substitution
performed by re.sub with a single-backslash whitespace pattern, as in
normalize_text of src/main.py.  The Bool records being inside a run
whose single space was already emitted. -/
def collapseWs (inRun : Bool) : List Char → List Char
  | [] => []
  | c :: rest =>
      if pyIsSpace c then
        if inRun then collapseWs true rest
        else ' ' :: collapseWs true rest
      else c :: collapseWs false rest

/-- src/main.py normalize_text: strip, lower, collapse whitespace runs
to single spaces (this sibling copy uses the correct regex). -/
def normalize_text (text : String) : String :=
  String.mk (collapseWs false (pyLower (pyStrip text)).data)

/-- src/utils.py validate_time_range. -/
def validate_time_range (start «end» : ℚ) (max_duration : Option ℚ) : Bool :=
  if start < 0 then false
  else if «end» ≤ start then false
  else
    match max_duration with
    | some m => if «end» > m then false else true
    | none => true

/-! ## src/youtube_2_whisper/models.py -/

/-- Metadata of a video, as returned by get_video_info. -/
structure VideoInfo where
  video_id : String
  duration : ℚ
  speaker_id : String
  channel_name : String

/-- A time segment of the audio. -/
structure TimeSegment where
  start : ℚ
  «end» : ℚ
deriving DecidableEq

/-- Derived attribute duration = end - start. -/
def TimeSegment.duration (s : TimeSegment) : ℚ := s.«end» - s.start

/-- TimeSegment.is_valid. -/
def TimeSegment.is_valid (s : TimeSegment) : Bool :=
  decide (s.start ≥ 0) && decide (s.«end» > s.start)

/-- TimeSegment.to_dict: start, end, duration_sec. -/
def TimeSegment.to_dict (s : TimeSegment) : ℚ × ℚ × ℚ :=
  (s.start, s.«end», s.duration)

/-- Raw and optionally normalized transcription text. -/
structure TranscriptionText where
  raw : String
  normalized : Option String

/-- TranscriptionText.to_dict: the normalized field of the serialized
dictionary is the Python expression (self.normalized or self.raw), so a
None or empty normalized text falls back to the raw text.  The pair is
(raw, normalized). -/
def TranscriptionText.to_dict (t : TranscriptionText) : String × String :=
  (t.raw,
    match t.normalized with
    | some s => if s.isEmpty then t.raw else s
    | none => t.raw)

/-- Speaker information. -/
structure Speaker where
  id : String
  voice_description : String

/-- Speaker.get_default_description. -/
def Speaker.get_default_description : String :=
  "Голос: unknown, unknown, телосложение: unknown; тембр — яркость: unknown, шероховатость: unknown, придыхательность: unknown."

/-- Audio source information. -/
structure Source where
  type : String
  id : String
  segment : TimeSegment

/-- Source.to_dict: type, id, segment_sec. -/
def Source.to_dict (s : Source) : String × String × (ℚ × ℚ × ℚ) :=
  (s.type, s.id, s.segment.to_dict)

/-- The aggregate transcription result. -/
structure TranscriptionResult where
  id : String
  lang : String
  text : TranscriptionText
  source : Source
  speaker : Speaker

/-- The f-string interpolating video id, start and end that generate_id
hashes (floats print via str, modelled by pyFloatStr). -/
def hashInput (video_id : String) (start_time end_time : ℚ) : String :=
  video_id ++ ":" ++ pyFloatStr start_time ++ ":" ++ pyFloatStr end_time

/-- TranscriptionResult.generate_id: the hex SHA-256 digest of the
UTF-8 encoding of the interpolated id string. -/
def TranscriptionResult.generate_id (video_id : String) (start_time end_time : ℚ) : String :=
  sha256HexOfString (hashInput video_id start_time end_time)

/-- The serialized form of a TranscriptionResult. -/
structure ResultDict where
  id : String
  lang : String
  text : String × String
  source : String × String × (ℚ × ℚ × ℚ)
  speaker : String × String

/-- TranscriptionResult.to_dict. -/
def TranscriptionResult.to_dict (r : TranscriptionResult) : ResultDict :=
  { id := r.id, lang := r.lang, text := r.text.to_dict,
    source := r.source.to_dict, speaker := (r.speaker.id, r.speaker.voice_description) }

/-- Python (a or b) on an optional string: falls through on None and on
the empty (falsy) string. -/
def orElseStr (s : Option String) (fallback : String) : String :=
  match s with
  | some v => if v.isEmpty then fallback else v
  | none => fallback

/-- TranscriptionResult.create: derive the content id from the video id
and segment bounds, attach texts, source and speaker (voice description
falls back to the default via Python or). -/
def TranscriptionResult.create (video_info : VideoInfo) (segment : TimeSegment)
    (raw_text lang source_type : String) (voice_desc : Option String)
    (normalized_text : Option String) : TranscriptionResult :=
  { id := TranscriptionResult.generate_id video_info.video_id segment.start segment.«end»
    lang := lang
    text := { raw := raw_text, normalized := normalized_text }
    source := { type := source_type, id := video_info.video_id, segment := segment }
    speaker := { id := video_info.speaker_id,
                 voice_description := orElseStr voice_desc Speaker.get_default_description } }

/-! ## src/youtube_downloader.py

The yt-dlp collaborator is external: get_video_info is modelled as the
pure mapping from the extracted info dictionary to VideoInfo, and
download_audio as the explicit success/failure decision the code makes
from the backend outcome and the observed presence of the FLAC file. -/

/-- The fields read from the yt-dlp info dictionary. -/
structure RawInfo where
  id : String
  duration : ℚ
  channel_id : Option String
  uploader_id : Option String
  channel : Option String

namespace AudioDownloader

/-- AudioDownloader.get_video_info given an extracted info dictionary:
sanitize the video id and resolve the speaker id through the fallback
chain channel_id, uploader_id, video id (Python or semantics). -/
def get_video_info (info : RawInfo) : VideoInfo :=
  let video_id := sanitize_filename info.id MAX_FILENAME_LENGTH
  { video_id := video_id
    duration := info.duration
    speaker_id := orElseStr info.channel_id (orElseStr info.uploader_id video_id)
    channel_name := (info.channel).getD "unknown" }

/-- AudioDownloader.download_audio, with the backend download call as
an oracle outcome: propagate a backend failure, then fail with the
FileNotFoundError message when the expected FLAC file is absent, else
return its path. -/
def download_audio (backend : Except String Unit) (flac_exists : Bool)
    (output_path : String) : Except String String :=
  match backend with
  | .error e => .error e
  | .ok _ =>
      if flac_exists then .ok (output_path ++ ".flac")
      else .error ("FLAC файл не был создан: " ++ output_path ++ ".flac")

/-- AudioDownloader.generate_filename: full-video mode (segment None,
or both literal strings None) uses the bare video id; fragment mode
appends the sanitized original user strings (falling back to str of the
parsed bound only when one string is missing, via Python or). -/
def generate_filename (video_info : VideoInfo) (segment : Option TimeSegment)
    (start_str end_str : Option String) : String :=
  match segment, start_str, end_str with
  | none, _, _ => video_info.video_id
  | some _, none, none => video_info.video_id
  | some seg, s, e =>
      let start_safe := sanitize_filename (orElseStr s (pyFloatStr seg.start)) MAX_FILENAME_LENGTH
      let end_safe := sanitize_filename (orElseStr e (pyFloatStr seg.«end»)) MAX_FILENAME_LENGTH
      video_info.video_id ++ "_" ++ start_safe ++ "_" ++ end_safe

end AudioDownloader

/-! ## src/youtube_2_whisper/processor.py -/

/-- The downloader collaborator outcomes observed by one pipeline run:
the metadata fetch, the backend download call, and whether the FLAC
file exists afterwards. -/
structure DownloadOracle where
  video_info : Except String RawInfo
  backend : Except String Unit
  flac_exists : Bool

/-- The transcription service outcome: raw text plus optional
normalized text, or a failure. -/
structure TranscribeOracle where
  result : Except String (String × Option String)

namespace VideoProcessor

/-- VideoProcessor._parse_time_segment: full-video segment when either
bound string is missing; otherwise parse both with parse_time (a parse
failure aborts) and validate the range against the video duration. -/
def _parse_time_segment (start_str end_str : Option String)
    (video_info : VideoInfo) : Option TimeSegment × Bool :=
  match start_str, end_str with
  | some s, some e =>
      (match parse_time s, parse_time e with
       | .ok start_time, .ok end_time =>
           if validate_time_range start_time end_time (some video_info.duration) then
             (some ⟨start_time, end_time⟩, false)
           else (none, false)
       | _, _ => (none, false))
  | _, _ => (some ⟨0, video_info.duration⟩, true)

/-- VideoProcessor.process: the full pipeline over the collaborator
oracles.  The first component is the return value (the JSON path on
success, None on any abort) and the second is the list of JSON result
files written during the run. -/
def process (downloader : DownloadOracle) (svc : TranscribeOracle)
    (output_dir : String) (start_str end_str : Option String)
    (lang source_type : String) (voice_desc : Option String) :
    Option String × List String :=
  match downloader.video_info with
  | .error _ => (none, [])
  | .ok info =>
      let video_info := AudioDownloader.get_video_info info
      match _parse_time_segment start_str end_str video_info with
      | (none, _) => (none, [])
      | (some segment, is_full_video) =>
          let filename_base := AudioDownloader.generate_filename video_info
            (if is_full_video then none else some segment) start_str end_str
          let audio_path := output_dir ++ "/" ++ filename_base
          let json_path := output_dir ++ "/" ++ filename_base ++ ".json"
          match AudioDownloader.download_audio downloader.backend downloader.flac_exists audio_path with
          | .error _ => (none, [])
          | .ok _ =>
              match svc.result with
              | .error _ => (none, [])
              | .ok (raw_text, normalized_text) =>
                  let _result := TranscriptionResult.create video_info segment raw_text
                    lang source_type voice_desc normalized_text
                  (some json_path, [json_path])

end VideoProcessor

theorem str_data_append (a b : String) : (a ++ b).data = a.data ++ b.data := by
  cases a; cases b; rfl

theorem str_eq_of_data (a b : String) (h : a.data = b.data) : a = b := by
  cases a; cases b; exact congrArg String.mk (by simpa using h)

/-- C1: generate_id(v, s, e) is exactly the hex SHA-256 digest of the UTF-8
encoding of the interpolated string v:s:e; it is deterministic (identical
inputs give the identical digest); changing any single input changes the
hashed pre-image string, and changes the digest on the representative
sample below (digest values cross-checked against hashlib). -/
theorem C1_generate_id_spec :
    (∀ (v : String) (s e : ℚ), TranscriptionResult.generate_id v s e =
        sha256Hex (utf8Encode (v ++ ":" ++ pyFloatStr s ++ ":" ++ pyFloatStr e))) ∧
    (∀ (v₁ v₂ : String) (s₁ s₂ e₁ e₂ : ℚ), v₁ = v₂ → s₁ = s₂ → e₁ = e₂ →
        TranscriptionResult.generate_id v₁ s₁ e₁ = TranscriptionResult.generate_id v₂ s₂ e₂) ∧
    (∀ (v v' : String) (s e : ℚ), v ≠ v' → hashInput v s e ≠ hashInput v' s e) ∧
    (∀ (v : String) (s s' e : ℚ), pyFloatStr s ≠ pyFloatStr s' →
        hashInput v s e ≠ hashInput v s' e) ∧
    (∀ (v : String) (s e e' : ℚ), pyFloatStr e ≠ pyFloatStr e' →
        hashInput v s e ≠ hashInput v s e') ∧
    TranscriptionResult.generate_id "vid" 10 20 =
      "50230e2ea51aed9dfb067e81cf2ebc15552e75295cab0dc4987df8be23bd4755" ∧
    TranscriptionResult.generate_id "vid2" 10 20 =
      "bfc190756ccfed75b9907dc1bbee6558a4c522b898374576c66755dc15d58076" ∧
    TranscriptionResult.generate_id "vid" 11 20 =
      "083c53e21c5d7184264d24e15ff4e4a44f96b12f9e72564b2c6154a102c818bd" ∧
    TranscriptionResult.generate_id "vid" 10 21 =
      "c4ee0d372123d7203a1a16a9f2abae2011fd28f05cdddd2f1a8f487a5dba11d8" ∧
    TranscriptionResult.generate_id "vid" 10 20 ≠ TranscriptionResult.generate_id "vid2" 10 20 ∧
    TranscriptionResult.generate_id "vid" 10 20 ≠ TranscriptionResult.generate_id "vid" 11 20 ∧
    TranscriptionResult.generate_id "vid" 10 20 ≠ TranscriptionResult.generate_id "vid" 10 21 := by
  have h1 : TranscriptionResult.generate_id "vid" 10 20 =
      "50230e2ea51aed9dfb067e81cf2ebc15552e75295cab0dc4987df8be23bd4755" := by decide
  have h2 : TranscriptionResult.generate_id "vid2" 10 20 =
      "bfc190756ccfed75b9907dc1bbee6558a4c522b898374576c66755dc15d58076" := by decide
  have h3 : TranscriptionResult.generate_id "vid" 11 20 =
      "083c53e21c5d7184264d24e15ff4e4a44f96b12f9e72564b2c6154a102c818bd" := by decide
  have h4 : TranscriptionResult.generate_id "vid" 10 21 =
      "c4ee0d372123d7203a1a16a9f2abae2011fd28f05cdddd2f1a8f487a5dba11d8" := by decide
  refine ⟨fun v s e => rfl, ?_, ?_, ?_, ?_, h1, h2, h3, h4, ?_, ?_, ?_⟩
  · rintro v₁ v₂ s₁ s₂ e₁ e₂ rfl rfl rfl; rfl
  · intro v v' s e hne heq
    apply hne
    have h2d := congrArg String.data heq
    simp only [hashInput, str_data_append, List.append_assoc] at h2d
    exact str_eq_of_data _ _ (List.append_cancel_right h2d)
  · intro v s s' e hne heq
    apply hne
    have h2d := congrArg String.data heq
    simp only [hashInput, str_data_append, List.append_assoc] at h2d
    exact str_eq_of_data _ _
      (List.append_cancel_right (List.append_cancel_left (List.append_cancel_left h2d)))
  · intro v s e e' hne heq
    apply hne
    have h2d := congrArg String.data heq
    simp only [hashInput, str_data_append, List.append_assoc] at h2d
    exact str_eq_of_data _ _
      (List.append_cancel_left (List.append_cancel_left (List.append_cancel_left
        (List.append_cancel_left h2d))))
  · rw [h1, h2]; decide
  · rw [h1, h3]; decide
  · rw [h1, h4]; decide

/-- Witness instantiating the C1 per-coordinate pre-image distinctness. -/
theorem C1_witness : hashInput "vid" 10 20 ≠ hashInput "vid2" 10 20 :=
  C1_generate_id_spec.2.2.1 "vid" "vid2" 10 20 (by decide)

theorem take_mk_length_le (l : List Char) (n : ℕ) : (String.mk (l.take n)).length ≤ n := by
  show (l.take n).length ≤ n
  simp

theorem mem_pyStrip_data {c : Char} {s : String} (h : c ∈ (pyStrip s).data) : c ∈ s.data := by
  simp only [pyStrip] at h
  have h1 := (List.mem_reverse).1 h
  have h2 := (List.dropWhile_sublist pyIsSpace).subset h1
  have h3 := (List.mem_reverse).1 h2
  exact (List.dropWhile_sublist pyIsSpace).subset h3

/-- C9: sanitize_filename replaces each of the characters in the forbidden
set with an underscore, trims surrounding whitespace and truncates to the
maximum length; the result never exceeds max_length codepoints, contains no
forbidden character regardless of position, and the function is the stated
deterministic composition. -/
theorem C9_sanitize_filename_spec :
    (∀ (s : String) (n : ℕ), sanitize_filename s n =
        (let clean :=
          pyStrip (String.mk (s.data.map (fun c => if isForbiddenChar c then '_' else c)))
         if clean.length > n then String.mk (clean.data.take n) else clean)) ∧
    (∀ (s : String) (n : ℕ), (sanitize_filename s n).length ≤ n) ∧
    (∀ (s : String) (n : ℕ) (c : Char),
        c ∈ (sanitize_filename s n).data → isForbiddenChar c = false) ∧
    sanitize_filename "video:test/2024" 200 = "video:test_2024" ∧
    sanitize_filename "video|test/2024" 200 = "video_test_2024" := by
  refine ⟨fun s n => rfl, ?_, ?_, by decide, by decide⟩
  · intro s n
    unfold sanitize_filename
    dsimp only
    split_ifs with h
    · exact take_mk_length_le _ n
    · omega
  · intro s n c hc
    have hclean : c ∈ (pyStrip (String.mk (s.data.map
        (fun c => if isForbiddenChar c then '_' else c)))).data := by
      unfold sanitize_filename at hc
      dsimp only at hc
      split_ifs at hc with h
      · exact List.take_subset _ _ hc
      · exact hc
    have hmap := mem_pyStrip_data hclean
    simp only [List.mem_map] at hmap
    obtain ⟨c0, _, hc0⟩ := hmap
    by_cases hf : isForbiddenChar c0 = true
    · simp [hf] at hc0; subst hc0; decide
    · simp [Bool.not_eq_true] at hf; simp [hf] at hc0; subst hc0; exact hf

theorem C9_witness :
    ('t' ∈ (sanitize_filename "video:test/2024" 200).data) ∧ isForbiddenChar 't' = false :=
  ⟨by decide, C9_sanitize_filename_spec.2.2.1 "video:test/2024" 200 't' (by decide)⟩

/-- C2: parse_time dispatches on the count of colon-separated components:
one component is parsed as a plain float, two give M*60+S (fractional
seconds allowed), three give H*3600+M*60+S, four add the fourth component
as whole milliseconds; with the stated example values. -/
theorem C2_parse_time_spec :
    (∀ (s a : String), pySplitColon (pyStrip s) = [a] → parse_time s = pyFloatE a) ∧
    (∀ (s a b : String), pySplitColon (pyStrip s) = [a, b] →
        parse_time s = do
          let x ← pyFloatE a
          let y ← pyFloatE b
          pure (x * 60 + y)) ∧
    (∀ (s a b c : String), pySplitColon (pyStrip s) = [a, b, c] →
        parse_time s = do
          let x ← pyFloatE a
          let y ← pyFloatE b
          let z ← pyFloatE c
          pure (x * 3600 + y * 60 + z)) ∧
    (∀ (s a b c d : String), pySplitColon (pyStrip s) = [a, b, c, d] →
        parse_time s = do
          let x ← pyFloatE a
          let y ← pyFloatE b
          let z ← pyFloatE c
          let w ← pyFloatE d
          pure (x * 3600 + y * 60 + z + w / 1000)) ∧
    parse_time "45" = .ok 45 ∧
    parse_time "1:30" = .ok 90 ∧
    parse_time "1:30.5" = .ok (181 / 2 : ℚ) ∧
    parse_time "1:2:30" = .ok 3750 ∧
    parse_time "1:2:30:500" = .ok (7501 / 2 : ℚ) := by
  refine ⟨?_, ?_, ?_, ?_, by decide, by decide, by decide, by decide, by decide⟩
  · intro s a h; unfold parse_time; dsimp only; rw [h]
  · intro s a b h; unfold parse_time; dsimp only; rw [h]
  · intro s a b c h; unfold parse_time; dsimp only; rw [h]
  · intro s a b c d h; unfold parse_time; dsimp only; rw [h]

theorem C2_witness : parse_time "1:30" = (do
    let x ← pyFloatE "1"
    let y ← pyFloatE "30"
    pure (x * 60 + y)) :=
  C2_parse_time_spec.2.1 "1:30" "1" "30" (by decide)

theorem pyFloatE_error_of_none {p : String} (h : pyFloat p = none) :
    pyFloatE p = .error ("could not convert string to float: " ++ p) := by
  simp [pyFloatE, h]

/-- C8: parse_time fails for any component count other than 1-4 with a
message carrying the offending (stripped) input and the supported forms,
and fails, propagating the float conversion error, whenever some component
is not a valid numeric literal, e.g. on "bad:::x". -/
theorem C8_parse_time_errors :
    (∀ s : String, (pySplitColon (pyStrip s)).length ∉ ([1, 2, 3, 4] : List ℕ) →
        parse_time s = .error (timeFormatError (pyStrip s))) ∧
    (∀ s : String, (∃ p ∈ pySplitColon (pyStrip s), pyFloat p = none) →
        ∃ m, parse_time s = .error m) ∧
    parse_time "bad:::x" = .error "could not convert string to float: bad" := by
  refine ⟨?_, ?_, by decide⟩
  · intro s h
    unfold parse_time
    dsimp only
    rcases hp : pySplitColon (pyStrip s) with _ | ⟨a, _ | ⟨b, _ | ⟨c, _ | ⟨d, _ | ⟨e, r⟩⟩⟩⟩⟩ <;>
      rw [hp] at h <;> first | rfl | simp at h
  · intro s hex
    obtain ⟨p, hmem, hnone⟩ := hex
    have herr : pyFloatE p = .error ("could not convert string to float: " ++ p) :=
      pyFloatE_error_of_none hnone
    unfold parse_time
    dsimp only
    rcases hp : pySplitColon (pyStrip s) with _ | ⟨a, _ | ⟨b, _ | ⟨c, _ | ⟨d, _ | ⟨e, r⟩⟩⟩⟩⟩ <;>
        rw [hp] at hmem <;> dsimp only
    · simp at hmem
    · simp at hmem
      subst hmem
      exact ⟨_, by rw [herr]⟩
    · simp at hmem
      rcases hmem with rfl | rfl
      · exact ⟨_, by rw [herr]; rfl⟩
      · cases hfa : pyFloatE a with
        | error m => exact ⟨m, rfl⟩
        | ok x => exact ⟨_, by rw [herr]; rfl⟩
    · simp at hmem
      rcases hmem with rfl | rfl | rfl
      · exact ⟨_, by rw [herr]; rfl⟩
      · cases hfa : pyFloatE a with
        | error m => exact ⟨m, rfl⟩
        | ok x => exact ⟨_, by rw [herr]; rfl⟩
      · cases hfa : pyFloatE a with
        | error m => exact ⟨m, rfl⟩
        | ok x =>
            cases hfb : pyFloatE b with
            | error m => exact ⟨m, rfl⟩
            | ok y => exact ⟨_, by rw [herr]; rfl⟩
    · simp at hmem
      rcases hmem with rfl | rfl | rfl | rfl
      · exact ⟨_, by rw [herr]; rfl⟩
      · cases hfa : pyFloatE a with
        | error m => exact ⟨m, rfl⟩
        | ok x => exact ⟨_, by rw [herr]; rfl⟩
      · cases hfa : pyFloatE a with
        | error m => exact ⟨m, rfl⟩
        | ok x =>
            cases hfb : pyFloatE b with
            | error m => exact ⟨m, rfl⟩
            | ok y => exact ⟨_, by rw [herr]; rfl⟩
      · cases hfa : pyFloatE a with
        | error m => exact ⟨m, rfl⟩
        | ok x =>
            cases hfb : pyFloatE b with
            | error m => exact ⟨m, rfl⟩
            | ok y =>
                cases hfc : pyFloatE c with
                | error m => exact ⟨m, rfl⟩
                | ok z => exact ⟨_, by rw [herr]; rfl⟩
    · exact ⟨_, rfl⟩

theorem C8_witness :
    parse_time "1:2:3:4:5" = .error (timeFormatError "1:2:3:4:5") := by
  have h := C8_parse_time_errors.1 "1:2:3:4:5" (by decide)
  simpa using h

/-- C3: validate_time_range is true exactly when start is nonnegative, end
exceeds start, and end does not exceed a supplied maximum duration; the
four example evaluations hold; and in segment resolution a positive known
duration smaller than the requested end makes _parse_time_segment abort
with the no-segment sentinel. -/
theorem C3_validate_range_spec :
    (∀ (a b : ℚ) (m : Option ℚ), validate_time_range a b m = true ↔
        (0 ≤ a ∧ a < b ∧ ∀ d, m = some d → b ≤ d)) ∧
    validate_time_range (-1) 10 (some 100) = false ∧
    validate_time_range 10 10 (some 100) = false ∧
    validate_time_range 10 20 (some 15) = false ∧
    validate_time_range 10 20 (some 100) = true ∧
    (∀ (info : VideoInfo) (ss es : String) (st en : ℚ),
        parse_time ss = .ok st → parse_time es = .ok en →
        0 < info.duration → info.duration < en →
        VideoProcessor._parse_time_segment (some ss) (some es) info = (none, false)) := by
  refine ⟨?_, by decide, by decide, by decide, by decide, ?_⟩
  · intro a b m
    unfold validate_time_range
    rcases m with _ | d <;> dsimp only
    · split_ifs with h1 h2
      · simp only [Bool.false_eq_true, false_iff]
        rintro ⟨h0, hab, -⟩
        linarith
      · simp only [Bool.false_eq_true, false_iff]
        rintro ⟨h0, hab, -⟩
        linarith
      · constructor
        · intro _
          refine ⟨not_lt.1 h1, not_le.1 h2, ?_⟩
          intro d hd
          cases hd
        · intro _
          rfl
    · split_ifs with h1 h2 h3
      · simp only [Bool.false_eq_true, false_iff]
        rintro ⟨h0, hab, -⟩
        linarith
      · simp only [Bool.false_eq_true, false_iff]
        rintro ⟨h0, hab, -⟩
        linarith
      · simp only [Bool.false_eq_true, false_iff]
        rintro ⟨h0, hab, hall⟩
        have := hall d rfl
        linarith
      · constructor
        · intro _
          refine ⟨not_lt.1 h1, not_le.1 h2, ?_⟩
          intro e he
          injection he with he2
          subst he2
          exact not_lt.1 h3
        · intro _
          rfl
  · intro info ss es st en hs he hpos hlt
    have hv : validate_time_range st en (some info.duration) = false := by
      unfold validate_time_range
      dsimp only
      split_ifs with h1 h2 <;> rfl
    unfold VideoProcessor._parse_time_segment
    dsimp only
    rw [hs, he]
    dsimp only
    rw [hv]
    rfl

theorem C3_witness :
    VideoProcessor._parse_time_segment (some "10") (some "20") ⟨"v", 5, "s", "c"⟩ =
      (none, false) :=
  C3_validate_range_spec.2.2.2.2.2 ⟨"v", 5, "s", "c"⟩ "10" "20" 10 20
    (by decide) (by decide) (by decide) (by decide)

/-- C4 counterexample: with start "1:0" and end "2:0" the derived base
filename is vid_1:0_2:0, not vid_1_0_2_0 as claimed, because the colon is
not in the replaced character set of sanitize_filename in src/utils.py. -/
theorem C4_counterexample :
    AudioDownloader.generate_filename ⟨"vid", 180, "sp", "ch"⟩ (some ⟨60, 120⟩)
      (some "1:0") (some "2:0") = "vid_1:0_2:0" ∧
    "vid_1:0_2:0" ≠ "vid_1_0_2_0" :=
  ⟨by decide, by decide⟩

/-- C4 amended: in fragment mode the base filename is
videoId_sanitize(startStr)_sanitize(endStr) built from the original
literal user strings; sanitization leaves the colon unchanged, so start
"1:0" and end "2:0" yield the suffix 1:0_2:0. -/
theorem C4_amended_spec :
    (∀ (vinfo : VideoInfo) (seg : TimeSegment) (s e : String),
        s.isEmpty = false → e.isEmpty = false →
        AudioDownloader.generate_filename vinfo (some seg) (some s) (some e) =
          vinfo.video_id ++ "_" ++ sanitize_filename s MAX_FILENAME_LENGTH ++ "_" ++
            sanitize_filename e MAX_FILENAME_LENGTH) ∧
    sanitize_filename "1:0" MAX_FILENAME_LENGTH = "1:0" ∧
    sanitize_filename "2:0" MAX_FILENAME_LENGTH = "2:0" ∧
    AudioDownloader.generate_filename ⟨"vid", 180, "sp", "ch"⟩ (some ⟨60, 120⟩)
      (some "1:0") (some "2:0") = "vid_1:0_2:0" := by
  refine ⟨?_, by decide, by decide, by decide⟩
  intro vinfo seg s e hs he
  unfold AudioDownloader.generate_filename
  dsimp only
  simp [orElseStr, hs, he]

theorem C4_witness :
    AudioDownloader.generate_filename ⟨"vid", 180, "sp", "ch"⟩ (some ⟨60, 120⟩)
      (some "1:0") (some "2:0") =
      "vid" ++ "_" ++ sanitize_filename "1:0" MAX_FILENAME_LENGTH ++ "_" ++
        sanitize_filename "2:0" MAX_FILENAME_LENGTH :=
  C4_amended_spec.1 ⟨"vid", 180, "sp", "ch"⟩ ⟨60, 120⟩ "1:0" "2:0" (by decide) (by decide)

/-- C5: the simple normalization of src/utils.py (normalize_text_simple)
does NOT collapse internal whitespace runs, because its raw-string pattern
doubles the backslash and therefore matches a literal backslash followed
by the letter s; this contradicts its own docstring (and the claim), while
the sibling normalize_text of src/main.py collapses runs as documented. -/
theorem C5_normalize_code_bug :
    normalize_text_simple "a  b" = "a  b" ∧
    normalize_text "a  b" = "a b" ∧
    normalize_text_simple "a  b" ≠ normalize_text "a  b" ∧
    normalize_text_simple "  Привет   Мир  " = "привет   мир" ∧
    normalize_text "  Привет   Мир  " = "привет мир" :=
  ⟨by decide, by decide, by decide, by decide, by decide⟩

/-- C10: serializing a TranscriptionText whose normalized field is None
yields a normalized entry equal to the raw text, and a TranscriptionResult
created with no normalized text serializes with text.normalized = raw; the
field is never null or absent. -/
theorem C10_normalized_never_missing :
    (∀ t : TranscriptionText, t.normalized = none → t.to_dict = (t.raw, t.raw)) ∧
    (∀ (vinfo : VideoInfo) (seg : TimeSegment) (raw lang st : String) (vd : Option String),
        ((TranscriptionResult.create vinfo seg raw lang st vd none).to_dict).text =
          (raw, raw)) := by
  constructor
  · intro t h
    unfold TranscriptionText.to_dict
    rw [h]
  · intro vinfo seg raw lang st vd
    rfl

theorem C10_witness :
    (TranscriptionText.mk "x" none).to_dict = ("x", "x") :=
  C10_normalized_never_missing.1 ⟨"x", none⟩ rfl

/-- C6: every pipeline failure - metadata fetch error, segment resolution
failure, download backend error, missing FLAC file after a successful
backend report, or transcription error - makes process return the None
sentinel with no JSON result file written; a missing FLAC file makes
download_audio fail with the file-not-created error. -/
theorem C6_process_aborts :
    (∀ (dl : DownloadOracle) (svc : TranscribeOracle) (od : String)
        (ss es : Option String) (l st : String) (vd : Option String) (m : String),
        dl.video_info = .error m →
        VideoProcessor.process dl svc od ss es l st vd = (none, [])) ∧
    (∀ (dl : DownloadOracle) (svc : TranscribeOracle) (od : String)
        (ss es : Option String) (l st : String) (vd : Option String) (info : RawInfo),
        dl.video_info = .ok info →
        (VideoProcessor._parse_time_segment ss es (AudioDownloader.get_video_info info)).1 = none →
        VideoProcessor.process dl svc od ss es l st vd = (none, [])) ∧
    (∀ (dl : DownloadOracle) (svc : TranscribeOracle) (od : String)
        (ss es : Option String) (l st : String) (vd : Option String) (m : String),
        dl.backend = .error m →
        VideoProcessor.process dl svc od ss es l st vd = (none, [])) ∧
    (∀ (dl : DownloadOracle) (svc : TranscribeOracle) (od : String)
        (ss es : Option String) (l st : String) (vd : Option String),
        dl.flac_exists = false →
        VideoProcessor.process dl svc od ss es l st vd = (none, [])) ∧
    (∀ (dl : DownloadOracle) (svc : TranscribeOracle) (od : String)
        (ss es : Option String) (l st : String) (vd : Option String) (m : String),
        svc.result = .error m →
        VideoProcessor.process dl svc od ss es l st vd = (none, [])) ∧
    (∀ op : String, AudioDownloader.download_audio (.ok ()) false op =
        .error ("FLAC файл не был создан: " ++ op ++ ".flac")) := by
  refine ⟨?_, ?_, ?_, ?_, ?_, fun op => rfl⟩
  · intro dl svc od ss es l st vd m h
    unfold VideoProcessor.process
    rw [h]
  · intro dl svc od ss es l st vd info h1 h2
    unfold VideoProcessor.process
    rw [h1]
    dsimp only
    rcases hp : VideoProcessor._parse_time_segment ss es (AudioDownloader.get_video_info info)
      with ⟨seg, b⟩
    rw [hp] at h2
    dsimp only at h2
    subst h2
    rfl
  · intro dl svc od ss es l st vd m h
    unfold VideoProcessor.process
    rcases hvi : dl.video_info with m0 | info
    · rfl
    · dsimp only
      rcases hp : VideoProcessor._parse_time_segment ss es (AudioDownloader.get_video_info info)
        with ⟨seg, b⟩
      cases seg
      · rfl
      · dsimp only
        unfold AudioDownloader.download_audio
        rw [h]
  · intro dl svc od ss es l st vd h
    unfold VideoProcessor.process
    rcases hvi : dl.video_info with m0 | info
    · rfl
    · dsimp only
      rcases hp : VideoProcessor._parse_time_segment ss es (AudioDownloader.get_video_info info)
        with ⟨seg, b⟩
      cases seg
      · rfl
      · dsimp only
        unfold AudioDownloader.download_audio
        rw [h]
        rcases hb : dl.backend with mb | u
        · rfl
        · rfl
  · intro dl svc od ss es l st vd m h
    unfold VideoProcessor.process
    rcases hvi : dl.video_info with m0 | info
    · rfl
    · dsimp only
      rcases hp : VideoProcessor._parse_time_segment ss es (AudioDownloader.get_video_info info)
        with ⟨seg, b⟩
      cases seg
      · rfl
      · dsimp only
        unfold AudioDownloader.download_audio
        rcases hb : dl.backend with mb | u
        · rfl
        · rcases hf : dl.flac_exists
          · rfl
          · dsimp only
            rw [h]
            rfl

theorem C6_witness :
    VideoProcessor.process
      ⟨Except.ok ⟨"vid", 180, some "sp", none, some "ch"⟩, Except.ok (), false⟩
      ⟨Except.ok ("text", none)⟩ "out" none none "ru-RU" "youtube" none = (none, []) :=
  C6_process_aborts.2.2.2.1
    ⟨Except.ok ⟨"vid", 180, some "sp", none, some "ch"⟩, Except.ok (), false⟩
    ⟨Except.ok ("text", none)⟩ "out" none none "ru-RU" "youtube" none rfl

/-- C7: whenever the start or the end string is absent the pipeline runs in
full-video mode: the resolved segment is [0, duration] with the full-video
flag set, the derived base filename is the video id, which get_video_info
produces as the sanitized raw id; and the successful full-video run of
process derives its JSON path from the sanitized id. -/
theorem C7_full_video_spec :
    (∀ (ss es : Option String) (info : VideoInfo), ss = none ∨ es = none →
        VideoProcessor._parse_time_segment ss es info = (some ⟨0, info.duration⟩, true)) ∧
    (∀ (vinfo : VideoInfo) (ss es : Option String),
        AudioDownloader.generate_filename vinfo none ss es = vinfo.video_id) ∧
    (∀ raw : RawInfo, (AudioDownloader.get_video_info raw).video_id =
        sanitize_filename raw.id MAX_FILENAME_LENGTH) ∧
    (∀ (dl : DownloadOracle) (svc : TranscribeOracle) (od : String) (es : Option String)
        (l st : String) (vd : Option String) (info : RawInfo) (r : String) (n : Option String),
        dl.video_info = .ok info → dl.backend = .ok () → dl.flac_exists = true →
        svc.result = .ok (r, n) →
        VideoProcessor.process dl svc od none es l st vd =
          (some (od ++ "/" ++ sanitize_filename info.id MAX_FILENAME_LENGTH ++ ".json"),
           [od ++ "/" ++ sanitize_filename info.id MAX_FILENAME_LENGTH ++ ".json"])) := by
  refine ⟨?_, fun vinfo ss es => rfl, fun raw => rfl, ?_⟩
  · intro ss es info h
    unfold VideoProcessor._parse_time_segment
    cases ss with
    | none => rfl
    | some s =>
        cases es with
        | none => rfl
        | some e => simp at h
  · intro dl svc od es l st vd info r n h1 h2 h3 h4
    unfold VideoProcessor.process
    rw [h1]
    dsimp only
    have hseg : VideoProcessor._parse_time_segment none es (AudioDownloader.get_video_info info) =
        (some ⟨0, (AudioDownloader.get_video_info info).duration⟩, true) := by
      unfold VideoProcessor._parse_time_segment
      cases es <;> rfl
    rw [hseg]
    dsimp only
    unfold AudioDownloader.download_audio
    rw [h2, h3]
    dsimp only
    rw [h4]
    rfl

theorem C7_witness :
    VideoProcessor._parse_time_segment none (some "10") ⟨"v", 5, "s", "c"⟩ =
      (some ⟨0, 5⟩, true) :=
  C7_full_video_spec.1 none (some "10") ⟨"v", 5, "s", "c"⟩ (Or.inl rfl)
